import Mathlib

/-!
Verification of the warehouse-returns document-intelligence confidence-routing
pipeline against its specification.

The definitions below are a shallow embedding of the Python sources:
  src/document_intelligence/models/AzureDocumentIntelligenceModel.py
  src/document_intelligence/models/DocumentAnalysisResponseModel.py
  src/document_intelligence/models/ErrorResponseModel.py
  src/document_intelligence/services/document_intelligence_service.py
  src/document_intelligence/services/document_processing_service.py
  src/document_intelligence/repositories/blob_storage_repository.py

Modelling conventions:
* Python floats used for confidence scores and thresholds are modelled as
  rationals (the program only compares and stores them).
* Python `or` on floats is `pyOrFloat` (0.0 is falsy), on optional strings
  `pyOrStr` (None and the empty string are falsy).
* The wall clock (`datetime.utcnow().strftime("%Y/%m/%d")`) is passed in
  explicitly as a `storage_date` string (the `date_prefix` of the source).
* Azure SDK calls are modelled by an oracle `outcomes : Nat → AttemptOutcome`
  giving the result of each attempt; `asyncio.sleep` is recorded in a
  `delays` trace instead of being performed.
* Fields of the source models that no claim touches (bounding regions, spans,
  timestamps, log output) are omitted from the embedded structures.
-/

namespace WarehouseReturns

/-- Python truthiness-based `or` on floats: `0.0` is falsy, so
`a or b` yields `b` exactly when `a == 0.0`. -/
def pyOrFloat (a b : ℚ) : ℚ :=
  if a = 0 then b else a

/-- Python truthiness-based `or` on `Optional[str]` values: `None` and the
empty string are falsy. -/
def pyOrStr (a b : Option String) : Option String :=
  match a with
  | some s => if s = "" then b else some s
  | none => b

/-! ### AzureDocumentIntelligenceModel.py -/

/-- `DocumentField` (AzureDocumentIntelligenceModel.py): one extracted field
with its string value, raw content and confidence. -/
structure DocumentField where
  type : String
  valueString : Option String
  content : Option String
  confidence : ℚ
deriving Repr, DecidableEq

/-- `DocumentField.get_primary_value`: `self.valueString or self.content`. -/
def DocumentField.get_primary_value (f : DocumentField) : Option String :=
  pyOrStr f.valueString f.content

/-- `DocumentResult` (AzureDocumentIntelligenceModel.py): fields of one
analyzed document, keyed by field name. The Python dict is modelled as an
association list. -/
structure DocumentResult where
  docType : String
  fields : List (String × DocumentField)
  confidence : ℚ
deriving Repr, DecidableEq

/-- `DocumentResult.get_serial_field`: `self.fields.get('Serial')`. -/
def DocumentResult.get_serial_field (d : DocumentResult) : Option DocumentField :=
  (d.fields.find? (fun p => p.1 = "Serial")).map (fun p => p.2)

/-- `AnalyzeResult` (AzureDocumentIntelligenceModel.py). -/
structure AnalyzeResult where
  apiVersion : String
  modelId : String
  content : String
  documents : List DocumentResult
deriving Repr, DecidableEq

/-- `AnalyzeResult.get_primary_document`:
`self.documents[0] if self.documents else None`. -/
def AnalyzeResult.get_primary_document (a : AnalyzeResult) : Option DocumentResult :=
  a.documents.head?

/-- `AnalyzeResult.extract_serial_info`: serial value and confidence of the
primary document, `(None, 0.0)` when absent. -/
def AnalyzeResult.extract_serial_info (a : AnalyzeResult) : Option String × ℚ :=
  match a.get_primary_document with
  | none => (none, 0)
  | some primary_doc =>
    match primary_doc.get_serial_field with
    | none => (none, 0)
    | some serial_field => (serial_field.get_primary_value, serial_field.confidence)

/-- `AzureDocIntelResponse` (AzureDocumentIntelligenceModel.py): top-level
response of the external analysis capability. -/
structure AzureDocIntelResponse where
  status : String
  analyzeResult : Option AnalyzeResult
deriving Repr, DecidableEq

/-- Python `str.lower`, written over the character list so that concrete
instances reduce inside the kernel. -/
def strLower (s : String) : String :=
  String.mk (s.toList.map Char.toLower)

/-- `AzureDocIntelResponse.is_successful`:
`self.status.lower() == "succeeded" and self.analyzeResult is not None`. -/
def AzureDocIntelResponse.is_successful (r : AzureDocIntelResponse) : Bool :=
  strLower r.status = "succeeded" && r.analyzeResult.isSome

/-- `AzureDocIntelResponse.get_serial_extraction`: returns
`(serial_value, confidence_score, extraction_success)`; the failure guard is
`not self.is_successful() or not self.analyzeResult`. -/
def AzureDocIntelResponse.get_serial_extraction (r : AzureDocIntelResponse) :
    Option String × ℚ × Bool :=
  if !r.is_successful || r.analyzeResult.isNone then (none, 0, false)
  else
    match r.analyzeResult with
    | none => (none, 0, false)
    | some ar =>
      let info := ar.extract_serial_info
      (info.1, info.2, info.1.isSome)

/-! ### DocumentAnalysisResponseModel.py -/

/-- `AnalysisStatus` (DocumentAnalysisResponseModel.py). -/
inductive AnalysisStatus where
  | submitted
  | processing
  | succeeded
  | failed
  | requires_review
deriving Repr, DecidableEq

/-- `FieldExtractionStatus` (DocumentAnalysisResponseModel.py). -/
inductive FieldExtractionStatus where
  | extracted
  | low_confidence
  | not_found
  | extraction_error
deriving Repr, DecidableEq

/-- The `extraction_metadata` dict built in
`DocumentProcessingService._create_serial_field_result`; its three fixed keys
are modelled as structure fields. -/
structure ExtractionMetadata where
  meets_threshold : Bool
  extraction_success : Bool
  raw_extracted_value : Option String
deriving Repr, DecidableEq

/-- `SerialFieldResult` (DocumentAnalysisResponseModel.py), restricted to the
fields the processing service populates. -/
structure SerialFieldResult where
  field_name : String
  value : Option String
  confidence : ℚ
  status : FieldExtractionStatus
  extraction_metadata : Option ExtractionMetadata
deriving Repr, DecidableEq

/-! ### ErrorResponseModel.py -/

/-- `ErrorCode` (ErrorResponseModel.py). -/
inductive ErrorCode where
  | INVALID_REQUEST
  | INVALID_FILE_TYPE
  | FILE_SIZE_EXCEEDED
  | INVALID_URL
  | AZURE_API_ERROR
  | MODEL_NOT_FOUND
  | ANALYSIS_FAILED
  | ANALYSIS_TIMEOUT
  | FIELD_NOT_FOUND
  | LOW_CONFIDENCE
  | EXTRACTION_ERROR
  | BLOB_STORAGE_ERROR
  | PROCESSING_ERROR
  | CONFIGURATION_ERROR
  | INTERNAL_ERROR
  | SERVICE_UNAVAILABLE
  | AUTHENTICATION_ERROR
deriving Repr, DecidableEq

/-- `ErrorResponse` (ErrorResponseModel.py), restricted to the fields the
retry and orchestration paths use. `azure_error_status_code` stands for the
`status_code` entry of the `azure_error_details` dict. -/
structure ErrorResponse where
  error_code : ErrorCode
  message : String
  retry_after_seconds : Option ℕ
  azure_error_status_code : Option ℕ
deriving Repr, DecidableEq

/-- `ErrorResponse.is_retryable`: membership of `error_code` in the retryable
set. -/
def ErrorResponse.is_retryable (e : ErrorResponse) : Bool :=
  e.error_code = ErrorCode.AZURE_API_ERROR ||
  e.error_code = ErrorCode.ANALYSIS_TIMEOUT ||
  e.error_code = ErrorCode.SERVICE_UNAVAILABLE ||
  e.error_code = ErrorCode.PROCESSING_ERROR

/-- `ErrorResponse.create_azure_api_error` (ErrorResponseModel.py, lines
248-270): classification attached to a non-retried HTTP error; always code
`AZURE_API_ERROR` with `retry_after_seconds=30`. -/
def createAzureApiError (status_code : ℕ) : ErrorResponse :=
  { error_code := ErrorCode.AZURE_API_ERROR
    message := "Azure Document Intelligence API error occurred"
    retry_after_seconds := some 30
    azure_error_status_code := some status_code }

/-! ### document_intelligence_service.py — the External Analysis Gateway

`DocumentIntelligenceService.analyze_document_from_url` and
`analyze_document_from_bytes` share the same retry loop
(`for attempt in range(1, self.max_retry_attempts + 1)`); the loop body is
embedded once below. The outcome of each external attempt is supplied by an
oracle `outcomes : Nat → AttemptOutcome` (attempt numbers start at 1). -/

/-- Outcome of one `begin_analyze_document(...).result()` attempt:
success, an `HttpResponseError` with its status code, or a
`ServiceRequestError` (network / service unreachable). -/
inductive AttemptOutcome where
  | ok (resp : AzureDocIntelResponse)
  | httpError (status_code : ℕ)
  | serviceRequestError
deriving Repr, DecidableEq

/-- True for the outcomes the source retry loop treats as transient:
rate-limiting (HTTP 429) and `ServiceRequestError`. -/
def AttemptOutcome.isTransientFailure : AttemptOutcome → Bool
  | .httpError status_code => status_code = 429
  | .serviceRequestError => true
  | .ok _ => false

/-- Result of one `analyze_document_from_*` call, together with an
observability trace: how many external calls were made and which backoff
delays (in seconds) were slept. -/
structure AnalyzeCallResult where
  response : Option AzureDocIntelResponse
  error : Option ErrorResponse
  calls_made : ℕ
  delays : List ℕ
deriving Repr, DecidableEq

/-- Error built when a `ServiceRequestError` occurs on the final attempt
(document_intelligence_service.py, lines 223-239): code `AZURE_API_ERROR`,
`retry_after_seconds=60`. -/
def maxRetriesExceededError : ErrorResponse :=
  { error_code := ErrorCode.AZURE_API_ERROR
    message := "Document Intelligence service temporarily unavailable"
    retry_after_seconds := some 60
    azure_error_status_code := none }

/-- Error built when the retry loop falls through without returning
(the "should not be reached" edge case, lines 241-247). -/
def analysisFailedFallbackError : ErrorResponse :=
  { error_code := ErrorCode.ANALYSIS_FAILED
    message := "Document analysis failed after all retry attempts"
    retry_after_seconds := none
    azure_error_status_code := none }

/-- The retry loop of `analyze_document_from_url` / `analyze_document_from_bytes`
starting at a given attempt number. Matches the source exactly:
* success returns the converted response;
* `HttpResponseError` is retried only when `status_code == 429` and
  `attempt < max_retry_attempts`, with delay
  `retry_delay_seconds * 2 ** (attempt - 1)`; otherwise it returns
  `ErrorResponse.create_azure_api_error`;
* `ServiceRequestError` is retried when `attempt < max_retry_attempts` with
  the same delay, else returns the service-unavailable classification;
* a loop that never runs falls through to the `ANALYSIS_FAILED` fallback.
The second `ℕ` argument is the number of loop iterations left including the
current one (`max_retry_attempts + 1 - attempt`); it only makes the
recursion structural, while the loop bound is still expressed by the
source's own `attempt < max_retry_attempts` tests. Starting from attempt 1
with `max_retry_attempts` iterations, the 0 case is reached exactly when
`max_retry_attempts = 0`, i.e. when the Python `for` loop body never runs. -/
def analyzeAttemptsFrom (max_retry_attempts retry_delay_seconds : ℕ)
    (outcomes : ℕ → AttemptOutcome) : ℕ → ℕ → AnalyzeCallResult
  | _attempt, 0 =>
    { response := none, error := some analysisFailedFallbackError
      calls_made := 0, delays := [] }
  | attempt, remaining + 1 =>
    match outcomes attempt with
    | .ok resp =>
      { response := some resp, error := none, calls_made := 1, delays := [] }
    | .httpError status_code =>
      if status_code = 429 ∧ attempt < max_retry_attempts then
        let rest := analyzeAttemptsFrom max_retry_attempts retry_delay_seconds
          outcomes (attempt + 1) remaining
        { rest with calls_made := rest.calls_made + 1
                    delays := retry_delay_seconds * 2 ^ (attempt - 1) :: rest.delays }
      else
        { response := none, error := some (createAzureApiError status_code)
          calls_made := 1, delays := [] }
    | .serviceRequestError =>
      if attempt < max_retry_attempts then
        let rest := analyzeAttemptsFrom max_retry_attempts retry_delay_seconds
          outcomes (attempt + 1) remaining
        { rest with calls_made := rest.calls_made + 1
                    delays := retry_delay_seconds * 2 ^ (attempt - 1) :: rest.delays }
      else
        { response := none, error := some maxRetriesExceededError
          calls_made := 1, delays := [] }

/-- `Gateway.analyze`: the full retry loop started at attempt 1, as in
`for attempt in range(1, self.max_retry_attempts + 1)`. -/
def analyzeDocument (max_retry_attempts retry_delay_seconds : ℕ)
    (outcomes : ℕ → AttemptOutcome) : AnalyzeCallResult :=
  analyzeAttemptsFrom max_retry_attempts retry_delay_seconds outcomes 1
    max_retry_attempts

/-- Constructor default `max_retry_attempts: int = 3`
(document_intelligence_service.py, line 62). -/
def defaultMaxRetryAttempts : ℕ := 3

/-- Constructor default `retry_delay_seconds: int = 2`
(document_intelligence_service.py, line 63). -/
def defaultRetryDelaySeconds : ℕ := 2

/-- Environment default `CONFIDENCE_THRESHOLD` = `0.7`
(document_processing_service.py, line 142). -/
def defaultConfidenceThreshold : ℚ := 7/10

/-! ### document_processing_service.py — the Processing Orchestrator -/

/-- `DocumentProcessingService._create_serial_field_result`
(document_processing_service.py, lines 644-680). -/
def createSerialFieldResult (serial_value : Option String) (confidence : ℚ)
    (meets_threshold extraction_success : Bool) : SerialFieldResult :=
  let status :=
    if !extraction_success then FieldExtractionStatus.not_found
    else if meets_threshold then FieldExtractionStatus.extracted
    else FieldExtractionStatus.low_confidence
  { field_name := "Serial"
    value := if meets_threshold then serial_value else none
    confidence := confidence
    status := status
    extraction_metadata := some
      { meets_threshold := meets_threshold
        extraction_success := extraction_success
        raw_extracted_value := serial_value } }

/-- Steps 2-3 of `process_document_from_bytes` / `process_document_from_url`
(lines 473-478): serial extraction from the Azure response, effective
threshold `request.confidence_threshold or self.confidence_threshold`
(Python `or`), and the threshold comparison. -/
structure ExtractionEval where
  serial_value : Option String
  confidence : ℚ
  extraction_success : Bool
  effective_threshold : ℚ
  meets_threshold : Bool
deriving Repr, DecidableEq

/-- Evaluate an Azure response against the request-level and service-level
confidence thresholds, exactly as steps 2-3 of the orchestrator do. -/
def evalExtraction (resp : AzureDocIntelResponse)
    (request_confidence_threshold service_confidence_threshold : ℚ) :
    ExtractionEval :=
  let ext := resp.get_serial_extraction
  let effective_threshold :=
    pyOrFloat request_confidence_threshold service_confidence_threshold
  { serial_value := ext.1
    confidence := ext.2.1
    extraction_success := ext.2.2
    effective_threshold := effective_threshold
    meets_threshold := decide (ext.2.1 ≥ effective_threshold) }

/-- Step 5 of the orchestrator (lines 496-502): overall analysis status. -/
def determineOverallStatus (extraction_success meets_threshold : Bool) :
    AnalysisStatus :=
  if extraction_success && meets_threshold then AnalysisStatus.succeeded
  else if extraction_success && !meets_threshold then AnalysisStatus.requires_review
  else AnalysisStatus.failed

/-- The `blob_storage_info` dict returned by the repository on success,
restricted to its path-valued entries. -/
structure StorageInfo where
  container_name : String
  document_blob_path : String
  metadata_blob_path : String
deriving Repr, DecidableEq

/-- The `error_details` dict of a failed `DocumentAnalysisResponse`
(lines 842-846). -/
structure ErrorDetails where
  error_code : ErrorCode
  message : String
deriving Repr, DecidableEq

/-- `DocumentAnalysisResponse` (DocumentAnalysisResponseModel.py), restricted
to the claim-relevant fields populated by the orchestrator. -/
structure ProcessedResponse where
  analysis_status : AnalysisStatus
  serial_field : SerialFieldResult
  blob_storage_info : Option StorageInfo
  error_details : Option ErrorDetails
deriving Repr, DecidableEq

/-- `DocumentProcessingService._create_failed_response`
(document_processing_service.py, lines 800-847). -/
def createFailedResponse (error : Option ErrorResponse) : ProcessedResponse :=
  { analysis_status := AnalysisStatus.failed
    serial_field :=
      { field_name := "Serial"
        value := none
        confidence := 0
        status := FieldExtractionStatus.extraction_error
        extraction_metadata := none }
    blob_storage_info := none
    error_details := some
      { error_code :=
          match error with
          | some e => e.error_code
          | none => ErrorCode.PROCESSING_ERROR
        message :=
          match error with
          | some e => e.message
          | none => "Processing failed" } }

/-- Steps 2-7 of `process_document_from_bytes` (lines 473-603) after a
successful gateway call: extraction, threshold evaluation, field result,
overall status, conditional review storage, and response assembly. The
storage sub-call result (`blob_info, blob_error`) is passed in as
`store_result`; it is consulted only when the document qualifies for
storage (`not meets_threshold and extraction_success and
self.enable_blob_storage and self.blob_repository`). -/
def processDocumentCore (resp : AzureDocIntelResponse)
    (request_confidence_threshold service_confidence_threshold : ℚ)
    (enable_blob_storage blob_repository_available : Bool)
    (store_result : Option StorageInfo × Option ErrorResponse) :
    ProcessedResponse :=
  let e := evalExtraction resp request_confidence_threshold service_confidence_threshold
  let serial_field :=
    createSerialFieldResult e.serial_value e.confidence e.meets_threshold
      e.extraction_success
  let status := determineOverallStatus e.extraction_success e.meets_threshold
  let blob_storage_info :=
    if !e.meets_threshold && e.extraction_success && enable_blob_storage &&
        blob_repository_available then
      store_result.1
    else none
  { analysis_status := status
    serial_field := serial_field
    blob_storage_info := blob_storage_info
    error_details := none }

/-- Step 1 plus the short-circuit of `process_document_from_bytes`
(lines 453-471): `if error or not azure_response` return a failed response,
otherwise run the remaining pipeline. -/
def processDocumentFromGateway (gw : AnalyzeCallResult)
    (request_confidence_threshold service_confidence_threshold : ℚ)
    (enable_blob_storage blob_repository_available : Bool)
    (store_result : Option StorageInfo × Option ErrorResponse) :
    ProcessedResponse :=
  if gw.error.isSome || gw.response.isNone then createFailedResponse gw.error
  else
    match gw.response with
    | some resp =>
      processDocumentCore resp request_confidence_threshold
        service_confidence_threshold enable_blob_storage
        blob_repository_available store_result
    | none => createFailedResponse gw.error

/-! ### blob_storage_repository.py — the Review Storage Router -/

/-- Index of the last occurrence of a character in a list, as Python
`str.rfind` (`none` standing for Python result `-1`). -/
def rfindIdx (cs : List Char) (c : Char) : Option ℕ :=
  (List.range cs.length).foldl
    (fun acc i => if cs.get? i = some c then some i else acc) none

/-- The extension component of CPython `posixpath.splitext`: nonempty exactly
when the last dot comes after the last path separator and some non-dot
character stands between them; the extension then includes the dot. -/
def splitextExtension (p : String) : String :=
  let cs := p.toList
  let sepIdx : Option ℕ := rfindIdx cs '/'
  let dotIdx : Option ℕ := rfindIdx cs '.'
  match dotIdx with
  | none => ""
  | some d =>
    let afterSep : ℕ := match sepIdx with | none => 0 | some s => s + 1
    if (match sepIdx with | none => true | some s => s < d) &&
        (List.range cs.length).any
          (fun i => decide (afterSep ≤ i) && decide (i < d) &&
            decide (cs.get? i ≠ some '.')) then
      String.mk (cs.drop d)
    else ""

/-- The file-extension inference of `store_low_confidence_document`
(blob_storage_repository.py, lines 247-257): `os.path.splitext(filename)[1]
if '.' in filename else ''`, then when that is empty and a content type is
present, a lookup in the extension map with default `.bin`. -/
def fileExtension (filename content_type : String) : String :=
  let ext := if filename.toList.contains '.' then splitextExtension filename else ""
  if ext = "" && content_type ≠ "" then
    if content_type = "image/jpeg" then ".jpg"
    else if content_type = "image/png" then ".png"
    else if content_type = "image/tiff" then ".tiff"
    else if content_type = "application/pdf" then ".pdf"
    else ".bin"
  else ext

/-- `base_path` of `store_low_confidence_document` (line 245); `storage_date`
stands for the `date_prefix` there, that is
`datetime.utcnow().strftime("%Y/%m/%d")` evaluated at store time. -/
def storageBasePath (storage_date analysis_id : String) : String :=
  "low-confidence/pending-review/" ++ storage_date ++ "/" ++ analysis_id

/-- `document_blob_path` (line 259). -/
def documentBlobPath (storage_date analysis_id filename content_type : String) :
    String :=
  storageBasePath storage_date analysis_id ++ "/document" ++
    fileExtension filename content_type

/-- `metadata_blob_path` (line 260). -/
def metadataBlobPath (storage_date analysis_id : String) : String :=
  storageBasePath storage_date analysis_id ++ "/metadata.json"

/-- Blob container contents: a map from blob name to stored bytes
(bytes modelled as lists of naturals). -/
def BlobStore : Type := String → Option (List ℕ)

/-- The empty container. -/
def emptyBlobStore : BlobStore := fun _ => none

/-- `container_client.upload_blob(name=..., data=..., overwrite=True)`:
an existing blob under the same name is replaced. -/
def uploadBlob (st : BlobStore) (name : String) (data : List ℕ) : BlobStore :=
  fun k => if k = name then some data else st k

/-- The state effect of one successful pass of the upload section of
`store_low_confidence_document` (lines 307-339): the document blob followed
by the sibling metadata blob, both with `overwrite=True`. -/
def storeDocumentState (st : BlobStore)
    (storage_date analysis_id filename content_type : String)
    (document_data metadata_json : List ℕ) : BlobStore :=
  uploadBlob
    (uploadBlob st (documentBlobPath storage_date analysis_id filename content_type)
      document_data)
    (metadataBlobPath storage_date analysis_id) metadata_json

/-- Outcome of one storage attempt: success, or an `AzureError` raised by the
upload calls. -/
inductive StoreAttemptOutcome where
  | ok
  | azureError
deriving Repr, DecidableEq

/-- Result of one `store_low_confidence_document` call: the
`(storage_info, error)` pair plus a trace of upload attempts and backoff
delays. -/
structure StoreCallResult where
  storage_info : Option StorageInfo
  error : Option ErrorResponse
  calls_made : ℕ
  delays : List ℕ
deriving Repr, DecidableEq

/-- Error built when blob storage fails after the final attempt
(blob_storage_repository.py, lines 386-393). -/
def blobStorageFailedError : ErrorResponse :=
  { error_code := ErrorCode.BLOB_STORAGE_ERROR
    message := "Failed to store document for review"
    retry_after_seconds := none
    azure_error_status_code := none }

/-- Fallback error for a storage loop that never returns (lines 396-401). -/
def blobStorageFallbackError : ErrorResponse :=
  { error_code := ErrorCode.BLOB_STORAGE_ERROR
    message := "Document storage failed after all retry attempts"
    retry_after_seconds := none
    azure_error_status_code := none }

/-- The retry loop of `store_low_confidence_document` (lines 287-401),
starting at a given attempt. An `AzureError` is retried while
`attempt < max_retry_attempts` with delay
`retry_delay_seconds * 2 ** (attempt - 1)`, after which the call returns
`(None, BLOB_STORAGE_ERROR)` instead of raising. The trailing `ℕ` is the
count of loop iterations left including the current one, making the
recursion structural exactly as in `analyzeAttemptsFrom`. -/
def storeAttemptsFrom (max_retry_attempts retry_delay_seconds : ℕ)
    (outcomes : ℕ → StoreAttemptOutcome)
    (container_name storage_date analysis_id filename content_type : String) :
    ℕ → ℕ → StoreCallResult
  | _attempt, 0 =>
    { storage_info := none, error := some blobStorageFallbackError
      calls_made := 0, delays := [] }
  | attempt, remaining + 1 =>
    match outcomes attempt with
    | .ok =>
      { storage_info := some
          { container_name := container_name
            document_blob_path :=
              documentBlobPath storage_date analysis_id filename content_type
            metadata_blob_path := metadataBlobPath storage_date analysis_id }
        error := none, calls_made := 1, delays := [] }
    | .azureError =>
      if attempt < max_retry_attempts then
        let rest := storeAttemptsFrom max_retry_attempts retry_delay_seconds
          outcomes container_name storage_date analysis_id filename content_type
          (attempt + 1) remaining
        { rest with calls_made := rest.calls_made + 1
                    delays := retry_delay_seconds * 2 ^ (attempt - 1) :: rest.delays }
      else
        { storage_info := none, error := some blobStorageFailedError
          calls_made := 1, delays := [] }

/-- `store_low_confidence_document` from attempt 1. -/
def storeLowConfidenceDocument (max_retry_attempts retry_delay_seconds : ℕ)
    (outcomes : ℕ → StoreAttemptOutcome)
    (container_name storage_date analysis_id filename content_type : String) :
    StoreCallResult :=
  storeAttemptsFrom max_retry_attempts retry_delay_seconds outcomes
    container_name storage_date analysis_id filename content_type 1
    max_retry_attempts

/-! ### Concrete sample inputs used by witnesses and counterexamples -/

/-- A successful Azure response whose primary document carries a Serial field
with value SN123456789 and confidence 0.92 (end-to-end scenario A shape). -/
def sampleHighConfidenceResponse : AzureDocIntelResponse :=
  { status := "succeeded"
    analyzeResult := some
      { apiVersion := "2024-11-30"
        modelId := "serialnumber"
        content := "SN123456789"
        documents :=
          [ { docType := "serialnumber"
              fields :=
                [ ("Serial",
                    { type := "string"
                      valueString := some "SN123456789"
                      content := some "SN123456789"
                      confidence := 92/100 }) ]
              confidence := 99/100 } ] } }

/-- A successful Azure response whose Serial field has value SN987654321 and
confidence 0.45 (end-to-end scenario B shape). -/
def sampleLowConfidenceResponse : AzureDocIntelResponse :=
  { status := "succeeded"
    analyzeResult := some
      { apiVersion := "2024-11-30"
        modelId := "serialnumber"
        content := "SN987654321"
        documents :=
          [ { docType := "serialnumber"
              fields :=
                [ ("Serial",
                    { type := "string"
                      valueString := some "SN987654321"
                      content := some "SN987654321"
                      confidence := 45/100 }) ]
              confidence := 99/100 } ] } }

/-- A successful Azure response whose primary document has no Serial field. -/
def sampleNoSerialResponse : AzureDocIntelResponse :=
  { status := "succeeded"
    analyzeResult := some
      { apiVersion := "2024-11-30"
        modelId := "serialnumber"
        content := ""
        documents :=
          [ { docType := "serialnumber"
              fields := []
              confidence := 50/100 } ] } }

/-! ## Helper lemmas -/

/-- In `get_serial_extraction`, the `extraction_success` component always
equals the presence of the serial value (`success = serial_value is not None`). -/
theorem get_serial_extraction_success_eq (r : AzureDocIntelResponse) :
    r.get_serial_extraction.2.2 = r.get_serial_extraction.1.isSome := by
  unfold AzureDocIntelResponse.get_serial_extraction
  split
  · rfl
  · split <;> rfl

/-- The `extraction_success` field of an extraction evaluation equals the
presence of its serial value. -/
theorem evalExtraction_success_eq (resp : AzureDocIntelResponse)
    (reqT servT : ℚ) :
    (evalExtraction resp reqT servT).extraction_success =
      (evalExtraction resp reqT servT).serial_value.isSome :=
  get_serial_extraction_success_eq resp

/-- The `meets_threshold` field of an extraction evaluation is the decided
comparison of its own confidence and effective threshold. -/
theorem evalExtraction_meets_threshold_eq (resp : AzureDocIntelResponse)
    (reqT servT : ℚ) :
    (evalExtraction resp reqT servT).meets_threshold =
      decide ((evalExtraction resp reqT servT).confidence ≥
        (evalExtraction resp reqT servT).effective_threshold) := rfl

/-- Lowercasing the literal status used by the samples is the identity. -/
theorem strLower_succeeded : strLower "succeeded" = "succeeded" := by decide

/-- Full evaluation of the high-confidence sample at default thresholds. -/
theorem sampleHigh_eval :
    evalExtraction sampleHighConfidenceResponse (7/10) (7/10) =
      { serial_value := some "SN123456789", confidence := 92/100
        extraction_success := true, effective_threshold := 7/10
        meets_threshold := true } := by
  simp only [evalExtraction, sampleHighConfidenceResponse,
    AzureDocIntelResponse.get_serial_extraction,
    AzureDocIntelResponse.is_successful, strLower_succeeded,
    AnalyzeResult.extract_serial_info, AnalyzeResult.get_primary_document,
    DocumentResult.get_serial_field, DocumentField.get_primary_value,
    pyOrStr, pyOrFloat, List.find?, List.head?]
  norm_num

/-- Full evaluation of the low-confidence sample with a per-request threshold
of 0 and global default 0.7: the request value is falsy so the global default
applies. -/
theorem sampleLow_eval_zero_request :
    evalExtraction sampleLowConfidenceResponse 0 (7/10) =
      { serial_value := some "SN987654321", confidence := 45/100
        extraction_success := true, effective_threshold := 7/10
        meets_threshold := false } := by
  simp only [evalExtraction, sampleLowConfidenceResponse,
    AzureDocIntelResponse.get_serial_extraction,
    AzureDocIntelResponse.is_successful, strLower_succeeded,
    AnalyzeResult.extract_serial_info, AnalyzeResult.get_primary_document,
    DocumentResult.get_serial_field, DocumentField.get_primary_value,
    pyOrStr, pyOrFloat, List.find?, List.head?]
  norm_num

/-- Full evaluation of the low-confidence sample at default thresholds. -/
theorem sampleLow_eval :
    evalExtraction sampleLowConfidenceResponse (7/10) (7/10) =
      { serial_value := some "SN987654321", confidence := 45/100
        extraction_success := true, effective_threshold := 7/10
        meets_threshold := false } := by
  simp only [evalExtraction, sampleLowConfidenceResponse,
    AzureDocIntelResponse.get_serial_extraction,
    AzureDocIntelResponse.is_successful, strLower_succeeded,
    AnalyzeResult.extract_serial_info, AnalyzeResult.get_primary_document,
    DocumentResult.get_serial_field, DocumentField.get_primary_value,
    pyOrStr, pyOrFloat, List.find?, List.head?]
  norm_num

/-! ## Claim C1 -/

/-- C1: for every analysis in which the external call succeeds, the
field-level decision follows the extraction evaluation: an absent raw value
gives `not_found`; a present raw value with confidence at least the effective
threshold gives `extracted` with overall status `succeeded`; a present raw
value below the threshold gives `low_confidence` with overall status
`requires_review`. -/
theorem C1_field_decision (resp : AzureDocIntelResponse) (reqT servT : ℚ)
    (enable repo : Bool)
    (store_result : Option StorageInfo × Option ErrorResponse) :
    ((evalExtraction resp reqT servT).serial_value = none →
      (processDocumentCore resp reqT servT enable repo
        store_result).serial_field.status = FieldExtractionStatus.not_found) ∧
    (∀ x, (evalExtraction resp reqT servT).serial_value = some x →
      (evalExtraction resp reqT servT).confidence ≥
        (evalExtraction resp reqT servT).effective_threshold →
      (processDocumentCore resp reqT servT enable repo
        store_result).serial_field.status = FieldExtractionStatus.extracted ∧
      (processDocumentCore resp reqT servT enable repo
        store_result).analysis_status = AnalysisStatus.succeeded) ∧
    (∀ x, (evalExtraction resp reqT servT).serial_value = some x →
      (evalExtraction resp reqT servT).confidence <
        (evalExtraction resp reqT servT).effective_threshold →
      (processDocumentCore resp reqT servT enable repo
        store_result).serial_field.status = FieldExtractionStatus.low_confidence ∧
      (processDocumentCore resp reqT servT enable repo
        store_result).analysis_status = AnalysisStatus.requires_review) := by
  refine ⟨?_, ?_, ?_⟩
  · intro hv
    have hs : (evalExtraction resp reqT servT).extraction_success = false := by
      rw [evalExtraction_success_eq, hv]; rfl
    simp [processDocumentCore, createSerialFieldResult, hs]
  · intro x hx hge
    have hs : (evalExtraction resp reqT servT).extraction_success = true := by
      rw [evalExtraction_success_eq, hx]; rfl
    have hmt : (evalExtraction resp reqT servT).meets_threshold = true := by
      rw [evalExtraction_meets_threshold_eq]; exact decide_eq_true hge
    simp [processDocumentCore, createSerialFieldResult, determineOverallStatus,
      hs, hmt]
  · intro x hx hlt
    have hs : (evalExtraction resp reqT servT).extraction_success = true := by
      rw [evalExtraction_success_eq, hx]; rfl
    have hmt : (evalExtraction resp reqT servT).meets_threshold = false := by
      rw [evalExtraction_meets_threshold_eq]
      exact decide_eq_false (not_le.mpr hlt)
    simp [processDocumentCore, createSerialFieldResult, determineOverallStatus,
      hs, hmt]

/-- Witness for C1: the high-confidence sample (value SN123456789,
confidence 0.92, threshold 0.7) is accepted with overall status succeeded. -/
theorem C1_field_decision_witness :
    (processDocumentCore sampleHighConfidenceResponse (7/10) (7/10) true true
      (none, none)).serial_field.status = FieldExtractionStatus.extracted ∧
    (processDocumentCore sampleHighConfidenceResponse (7/10) (7/10) true true
      (none, none)).analysis_status = AnalysisStatus.succeeded :=
  (C1_field_decision sampleHighConfidenceResponse (7/10) (7/10) true true
    (none, none)).2.1 "SN123456789"
    (by rw [sampleHigh_eval])
    (by rw [sampleHigh_eval]; norm_num)

/-! ## Claim C2 -/

/-- C2: the raw value is surfaced as the field value only when the confidence
meets the threshold, in which case the surfaced value equals the raw value;
for a `low_confidence` (requires-review) outcome the public value is `None`,
while the raw value is retained inside the extraction metadata. -/
theorem C2_value_surfacing_invariant (resp : AzureDocIntelResponse)
    (reqT servT : ℚ) (enable repo : Bool)
    (store_result : Option StorageInfo × Option ErrorResponse) :
    (∀ x, (processDocumentCore resp reqT servT enable repo
        store_result).serial_field.value = some x →
      (evalExtraction resp reqT servT).meets_threshold = true ∧
      (evalExtraction resp reqT servT).serial_value = some x) ∧
    ((evalExtraction resp reqT servT).meets_threshold = true →
      (processDocumentCore resp reqT servT enable repo
        store_result).serial_field.value =
        (evalExtraction resp reqT servT).serial_value) ∧
    ((processDocumentCore resp reqT servT enable repo
        store_result).serial_field.status = FieldExtractionStatus.low_confidence →
      (processDocumentCore resp reqT servT enable repo
        store_result).serial_field.value = none) ∧
    (processDocumentCore resp reqT servT enable repo
        store_result).serial_field.extraction_metadata = some
      { meets_threshold := (evalExtraction resp reqT servT).meets_threshold
        extraction_success := (evalExtraction resp reqT servT).extraction_success
        raw_extracted_value := (evalExtraction resp reqT servT).serial_value } := by
  refine ⟨?_, ?_, ?_, ?_⟩
  · intro x hx
    by_cases hmt : (evalExtraction resp reqT servT).meets_threshold = true
    · refine ⟨hmt, ?_⟩
      simpa [processDocumentCore, createSerialFieldResult, hmt] using hx
    · rw [Bool.not_eq_true] at hmt
      simp [processDocumentCore, createSerialFieldResult, hmt] at hx
  · intro hmt
    simp [processDocumentCore, createSerialFieldResult, hmt]
  · intro hst
    by_cases hmt : (evalExtraction resp reqT servT).meets_threshold = true
    · exfalso
      by_cases hs : (evalExtraction resp reqT servT).extraction_success = true
      · simp [processDocumentCore, createSerialFieldResult, hmt, hs] at hst
      · rw [Bool.not_eq_true] at hs
        simp [processDocumentCore, createSerialFieldResult, hmt, hs] at hst
    · rw [Bool.not_eq_true] at hmt
      simp [processDocumentCore, createSerialFieldResult, hmt]
  · simp [processDocumentCore, createSerialFieldResult]

/-- Witness for C2: on the high-confidence sample the surfaced value equals
the raw extracted value. -/
theorem C2_value_surfacing_invariant_witness :
    (processDocumentCore sampleHighConfidenceResponse (7/10) (7/10) true true
      (none, none)).serial_field.value =
      (evalExtraction sampleHighConfidenceResponse (7/10) (7/10)).serial_value :=
  (C2_value_surfacing_invariant sampleHighConfidenceResponse (7/10) (7/10)
    true true (none, none)).2.1 (by rw [sampleHigh_eval])

/-! ## Claim C10 -/

/-- C10: whenever the field decision is `low_confidence` (requires review) or
`not_found`, the serial field object handed back to the caller still carries
the raw extracted value inside `extraction_metadata.raw_extracted_value`,
even though its public `value` is `None`. -/
theorem C10_raw_value_in_metadata (resp : AzureDocIntelResponse)
    (reqT servT : ℚ) (enable repo : Bool)
    (store_result : Option StorageInfo × Option ErrorResponse) :
    ((processDocumentCore resp reqT servT enable repo
        store_result).serial_field.status = FieldExtractionStatus.low_confidence ∨
      (processDocumentCore resp reqT servT enable repo
        store_result).serial_field.status = FieldExtractionStatus.not_found) →
    (processDocumentCore resp reqT servT enable repo
        store_result).serial_field.value = none ∧
    (processDocumentCore resp reqT servT enable repo
        store_result).serial_field.extraction_metadata = some
      { meets_threshold := (evalExtraction resp reqT servT).meets_threshold
        extraction_success := (evalExtraction resp reqT servT).extraction_success
        raw_extracted_value := (evalExtraction resp reqT servT).serial_value } := by
  intro hst
  refine ⟨?_, by simp [processDocumentCore, createSerialFieldResult]⟩
  by_cases hmt : (evalExtraction resp reqT servT).meets_threshold = true
  · by_cases hs : (evalExtraction resp reqT servT).extraction_success = true
    · exfalso
      rcases hst with h | h <;>
        simp [processDocumentCore, createSerialFieldResult, hmt, hs] at h
    · rw [Bool.not_eq_true] at hs
      have hv : (evalExtraction resp reqT servT).serial_value = none := by
        have h2 := evalExtraction_success_eq resp reqT servT
        rw [hs] at h2
        cases hvv : (evalExtraction resp reqT servT).serial_value with
        | none => rfl
        | some x => rw [hvv] at h2; simp at h2
      simp [processDocumentCore, createSerialFieldResult, hmt, hv]
  · rw [Bool.not_eq_true] at hmt
    simp [processDocumentCore, createSerialFieldResult, hmt]

/-- Witness for C10: on the low-confidence sample the caller-visible value is
`None` while the raw value SN987654321 sits in the extraction metadata. -/
theorem C10_raw_value_in_metadata_witness :
    (processDocumentCore sampleLowConfidenceResponse (7/10) (7/10) true true
      (none, none)).serial_field.value = none ∧
    (processDocumentCore sampleLowConfidenceResponse (7/10) (7/10) true true
      (none, none)).serial_field.extraction_metadata = some
      { meets_threshold := (evalExtraction sampleLowConfidenceResponse
          (7/10) (7/10)).meets_threshold
        extraction_success := (evalExtraction sampleLowConfidenceResponse
          (7/10) (7/10)).extraction_success
        raw_extracted_value := (evalExtraction sampleLowConfidenceResponse
          (7/10) (7/10)).serial_value } :=
  C10_raw_value_in_metadata sampleLowConfidenceResponse (7/10) (7/10) true true
    (none, none)
    (Or.inl (by
      simp [processDocumentCore, createSerialFieldResult, sampleLow_eval]))

/-! ## Claim C3 -/

/-- Counterexample to C3 as stated: with a per-request threshold of exactly
0.0 and a global default of 0.7, the effective threshold is 0.7 rather than
the request value, because the source computes
`request.confidence_threshold or self.confidence_threshold` and Python
treats 0.0 as falsy. On the low-confidence sample (raw value present,
confidence 0.45 ≥ 0.0) the claim predicts acceptance, yet the code yields a
low-confidence decision. -/
theorem C3_counterexample :
    (evalExtraction sampleLowConfidenceResponse 0 (7/10)).effective_threshold
        = 7/10 ∧
    (evalExtraction sampleLowConfidenceResponse 0 (7/10)).effective_threshold
        ≠ 0 ∧
    (evalExtraction sampleLowConfidenceResponse 0 (7/10)).serial_value
        = some "SN987654321" ∧
    (evalExtraction sampleLowConfidenceResponse 0 (7/10)).confidence ≥ 0 ∧
    (processDocumentCore sampleLowConfidenceResponse 0 (7/10) true true
      (none, none)).serial_field.status = FieldExtractionStatus.low_confidence := by
  refine ⟨?_, ?_, ?_, ?_, ?_⟩
  · rw [sampleLow_eval_zero_request]
  · rw [sampleLow_eval_zero_request]; norm_num
  · rw [sampleLow_eval_zero_request]
  · rw [sampleLow_eval_zero_request]; norm_num
  · simp [processDocumentCore, createSerialFieldResult,
      sampleLow_eval_zero_request]

/-- C3 amended: the effective confidence threshold is the per-request value
whenever that value is nonzero, and the process-wide configured default
otherwise — in particular a per-request threshold of exactly 0.0 is falsy in
the source's `or` expression and falls back to the global default. -/
theorem C3_threshold_precedence (resp : AzureDocIntelResponse)
    (reqT servT : ℚ) :
    (reqT ≠ 0 →
      (evalExtraction resp reqT servT).effective_threshold = reqT) ∧
    (reqT = 0 →
      (evalExtraction resp reqT servT).effective_threshold = servT) := by
  constructor <;> intro h <;> simp [evalExtraction, pyOrFloat, h]

/-- Witness for C3: a nonzero per-request threshold of 0.9 wins over the
global default. -/
theorem C3_threshold_precedence_witness :
    (evalExtraction sampleHighConfidenceResponse (9/10)
      defaultConfidenceThreshold).effective_threshold = 9/10 :=
  (C3_threshold_precedence sampleHighConfidenceResponse (9/10)
    defaultConfidenceThreshold).1 (by norm_num)

/-! ## Gateway retry-loop lemmas shared by C4, C5 and C7 -/

/-- One-step unfolding of the retry loop: a successful attempt returns the
response immediately. -/
theorem analyzeAttemptsFrom_ok (max_retry_attempts retry_delay_seconds : ℕ)
    (outcomes : ℕ → AttemptOutcome) (attempt r : ℕ)
    (resp : AzureDocIntelResponse) (ho : outcomes attempt = .ok resp) :
    analyzeAttemptsFrom max_retry_attempts retry_delay_seconds outcomes
      attempt (r + 1) =
    { response := some resp, error := none, calls_made := 1, delays := [] } := by
  simp [analyzeAttemptsFrom, ho]

/-- One-step unfolding of the retry loop: a rate-limited attempt before the
last one sleeps the backoff delay and recurses. -/
theorem analyzeAttemptsFrom_step_http429
    (max_retry_attempts retry_delay_seconds : ℕ)
    (outcomes : ℕ → AttemptOutcome) (attempt r sc : ℕ)
    (ho : outcomes attempt = .httpError sc) (hsc : sc = 429)
    (hlt : attempt < max_retry_attempts) :
    analyzeAttemptsFrom max_retry_attempts retry_delay_seconds outcomes
      attempt (r + 1) =
    { response := (analyzeAttemptsFrom max_retry_attempts retry_delay_seconds
        outcomes (attempt + 1) r).response
      error := (analyzeAttemptsFrom max_retry_attempts retry_delay_seconds
        outcomes (attempt + 1) r).error
      calls_made := (analyzeAttemptsFrom max_retry_attempts retry_delay_seconds
        outcomes (attempt + 1) r).calls_made + 1
      delays := retry_delay_seconds * 2 ^ (attempt - 1) ::
        (analyzeAttemptsFrom max_retry_attempts retry_delay_seconds
          outcomes (attempt + 1) r).delays } := by
  simp [analyzeAttemptsFrom, ho, hsc, hlt]

/-- One-step unfolding of the retry loop: a network failure before the last
attempt sleeps the backoff delay and recurses. -/
theorem analyzeAttemptsFrom_step_service
    (max_retry_attempts retry_delay_seconds : ℕ)
    (outcomes : ℕ → AttemptOutcome) (attempt r : ℕ)
    (ho : outcomes attempt = .serviceRequestError)
    (hlt : attempt < max_retry_attempts) :
    analyzeAttemptsFrom max_retry_attempts retry_delay_seconds outcomes
      attempt (r + 1) =
    { response := (analyzeAttemptsFrom max_retry_attempts retry_delay_seconds
        outcomes (attempt + 1) r).response
      error := (analyzeAttemptsFrom max_retry_attempts retry_delay_seconds
        outcomes (attempt + 1) r).error
      calls_made := (analyzeAttemptsFrom max_retry_attempts retry_delay_seconds
        outcomes (attempt + 1) r).calls_made + 1
      delays := retry_delay_seconds * 2 ^ (attempt - 1) ::
        (analyzeAttemptsFrom max_retry_attempts retry_delay_seconds
          outcomes (attempt + 1) r).delays } := by
  simp [analyzeAttemptsFrom, ho, hlt]

/-- One-step unfolding of the retry loop: an HTTP error that is not a
retryable rate limit (not 429, or the final attempt) fails immediately with
the Azure API classification. -/
theorem analyzeAttemptsFrom_last_http
    (max_retry_attempts retry_delay_seconds : ℕ)
    (outcomes : ℕ → AttemptOutcome) (attempt r sc : ℕ)
    (ho : outcomes attempt = .httpError sc)
    (hnot : ¬ (sc = 429 ∧ attempt < max_retry_attempts)) :
    analyzeAttemptsFrom max_retry_attempts retry_delay_seconds outcomes
      attempt (r + 1) =
    { response := none, error := some (createAzureApiError sc)
      calls_made := 1, delays := [] } := by
  simp [analyzeAttemptsFrom, ho, hnot]

/-- One-step unfolding of the retry loop: a network failure on the final
attempt returns the service-unavailable classification. -/
theorem analyzeAttemptsFrom_last_service
    (max_retry_attempts retry_delay_seconds : ℕ)
    (outcomes : ℕ → AttemptOutcome) (attempt r : ℕ)
    (ho : outcomes attempt = .serviceRequestError)
    (hnlt : ¬ attempt < max_retry_attempts) :
    analyzeAttemptsFrom max_retry_attempts retry_delay_seconds outcomes
      attempt (r + 1) =
    { response := none, error := some maxRetriesExceededError
      calls_made := 1, delays := [] } := by
  simp [analyzeAttemptsFrom, ho, hnlt]

/-- When every attempt from `attempt` through `max_retry_attempts` fails with
a transient outcome (HTTP 429 or a service-request error), the retry loop
makes one call per remaining attempt, sleeps `base * 2 ^ (i - 1)` seconds
after each non-final failed attempt `i`, returns no response, and classifies
the failure as an `AZURE_API_ERROR` carrying a `retry_after_seconds` hint. -/
theorem analyzeAttemptsFrom_transient_spec
    (max_retry_attempts retry_delay_seconds : ℕ)
    (outcomes : ℕ → AttemptOutcome) :
    ∀ n attempt, 1 ≤ attempt → attempt + n = max_retry_attempts →
    (∀ i, attempt ≤ i → i ≤ max_retry_attempts →
      (outcomes i).isTransientFailure = true) →
    (analyzeAttemptsFrom max_retry_attempts retry_delay_seconds outcomes
        attempt (n + 1)).calls_made = n + 1 ∧
    (analyzeAttemptsFrom max_retry_attempts retry_delay_seconds outcomes
        attempt (n + 1)).response = none ∧
    (∃ e, (analyzeAttemptsFrom max_retry_attempts retry_delay_seconds outcomes
        attempt (n + 1)).error = some e ∧
      e.error_code = ErrorCode.AZURE_API_ERROR ∧
      e.retry_after_seconds.isSome = true) ∧
    (analyzeAttemptsFrom max_retry_attempts retry_delay_seconds outcomes
        attempt (n + 1)).delays =
      (List.range n).map
        (fun k => retry_delay_seconds * 2 ^ (attempt - 1 + k)) := by
  intro n
  induction n with
  | zero =>
    intro attempt h1 h2 hout
    have htr := hout attempt le_rfl (by omega)
    have hnlt : ¬ attempt < max_retry_attempts := by omega
    cases ho : outcomes attempt with
    | ok r =>
      rw [ho] at htr
      simp [AttemptOutcome.isTransientFailure] at htr
    | httpError sc =>
      rw [ho] at htr
      have hsc : sc = 429 := by
        simpa [AttemptOutcome.isTransientFailure] using htr
      rw [analyzeAttemptsFrom_last_http max_retry_attempts retry_delay_seconds
        outcomes attempt 0 sc ho (fun hc => hnlt hc.2)]
      exact ⟨rfl, rfl, ⟨createAzureApiError sc, rfl, rfl, rfl⟩, rfl⟩
    | serviceRequestError =>
      rw [analyzeAttemptsFrom_last_service max_retry_attempts
        retry_delay_seconds outcomes attempt 0 ho hnlt]
      exact ⟨rfl, rfl, ⟨maxRetriesExceededError, rfl, rfl, rfl⟩, rfl⟩
  | succ m ih =>
    intro attempt h1 h2 hout
    have hlt : attempt < max_retry_attempts := by omega
    have htr := hout attempt le_rfl (by omega)
    obtain ⟨ihc, ihr, ⟨e, ihe, hec, hra⟩, ihd⟩ :=
      ih (attempt + 1) (by omega) (by omega)
        (fun i hi1 hi2 => hout i (by omega) hi2)
    have hfeq : ((fun k => retry_delay_seconds * 2 ^ (attempt - 1 + k)) ∘
        Nat.succ) =
        (fun k => retry_delay_seconds * 2 ^ (attempt + 1 - 1 + k)) := by
      funext k
      have hidx : attempt - 1 + Nat.succ k = attempt + 1 - 1 + k := by omega
      simp [Function.comp, hidx]
    have hdelays :
        (List.range (m + 1)).map
          (fun k => retry_delay_seconds * 2 ^ (attempt - 1 + k)) =
        retry_delay_seconds * 2 ^ (attempt - 1) ::
          (List.range m).map
            (fun k => retry_delay_seconds * 2 ^ (attempt + 1 - 1 + k)) := by
      rw [List.range_succ_eq_map, List.map_cons, List.map_map, hfeq,
        Nat.add_zero]
    cases ho : outcomes attempt with
    | ok r =>
      rw [ho] at htr
      simp [AttemptOutcome.isTransientFailure] at htr
    | httpError sc =>
      rw [ho] at htr
      have hsc : sc = 429 := by
        simpa [AttemptOutcome.isTransientFailure] using htr
      rw [analyzeAttemptsFrom_step_http429 max_retry_attempts
        retry_delay_seconds outcomes attempt (m + 1) sc ho hsc hlt]
      exact ⟨by rw [ihc] , ihr, ⟨e, ihe, hec, hra⟩, by rw [ihd, hdelays]⟩
    | serviceRequestError =>
      rw [analyzeAttemptsFrom_step_service max_retry_attempts
        retry_delay_seconds outcomes attempt (m + 1) ho hlt]
      exact ⟨by rw [ihc], ihr, ⟨e, ihe, hec, hra⟩, by rw [ihd, hdelays]⟩

/-! ## Claim C4 -/

/-- Counterexample to C4 as stated: a 5xx response is claimed to belong to
the retried transient class, but with `max_retry_attempts = 3` and every
attempt answering HTTP 500 the gateway makes exactly one external call, sleeps
no backoff delay, and fails — the 5xx branch of the source handles only
status 429 as retryable, every other `HttpResponseError` falls through to the
non-retryable return. -/
theorem C4_counterexample :
    (analyzeDocument 3 2 (fun _ => AttemptOutcome.httpError 500)).calls_made
        = 1 ∧
    (analyzeDocument 3 2 (fun _ => AttemptOutcome.httpError 500)).calls_made
        ≠ 3 ∧
    (analyzeDocument 3 2 (fun _ => AttemptOutcome.httpError 500)).delays
        = [] ∧
    (analyzeDocument 3 2 (fun _ => AttemptOutcome.httpError 500)).error
        = some (createAzureApiError 500) := by
  refine ⟨?_, ?_, ?_, ?_⟩ <;> decide

/-- C4 amended: the transient class the gateway retries consists of HTTP 429
rate limiting and service-request (network) errors; each non-final failed
attempt `i` is followed by a delay of `retry_delay_seconds * 2 ^ (i - 1)`
seconds, giving at most `max_retry_attempts` calls; any other HTTP response
error — 5xx included — fails on the first occurrence without any retry. -/
theorem C4_retry_policy (max_retry_attempts retry_delay_seconds : ℕ)
    (outcomes : ℕ → AttemptOutcome) (h1 : 1 ≤ max_retry_attempts) :
    ((∀ i, 1 ≤ i → i ≤ max_retry_attempts →
        outcomes i = AttemptOutcome.httpError 429) →
      (analyzeDocument max_retry_attempts retry_delay_seconds
          outcomes).calls_made = max_retry_attempts ∧
      (analyzeDocument max_retry_attempts retry_delay_seconds
          outcomes).delays =
        (List.range (max_retry_attempts - 1)).map
          (fun k => retry_delay_seconds * 2 ^ k)) ∧
    ((∀ i, 1 ≤ i → i ≤ max_retry_attempts →
        outcomes i = AttemptOutcome.serviceRequestError) →
      (analyzeDocument max_retry_attempts retry_delay_seconds
          outcomes).calls_made = max_retry_attempts ∧
      (analyzeDocument max_retry_attempts retry_delay_seconds
          outcomes).delays =
        (List.range (max_retry_attempts - 1)).map
          (fun k => retry_delay_seconds * 2 ^ k)) ∧
    (∀ sc, sc ≠ 429 → outcomes 1 = AttemptOutcome.httpError sc →
      (analyzeDocument max_retry_attempts retry_delay_seconds
          outcomes).calls_made = 1 ∧
      (analyzeDocument max_retry_attempts retry_delay_seconds
          outcomes).delays = []) := by
  obtain ⟨m, rfl⟩ : ∃ m, max_retry_attempts = m + 1 :=
    ⟨max_retry_attempts - 1, by omega⟩
  refine ⟨?_, ?_, ?_⟩
  · intro hall
    have h := analyzeAttemptsFrom_transient_spec (m + 1)
      retry_delay_seconds outcomes m 1 le_rfl (by omega)
      (fun i hi1 hi2 => by
        rw [hall i hi1 hi2]
        simp [AttemptOutcome.isTransientFailure])
    rw [analyzeDocument]
    refine ⟨h.1, ?_⟩
    rw [h.2.2.2]
    simp
  · intro hall
    have h := analyzeAttemptsFrom_transient_spec (m + 1)
      retry_delay_seconds outcomes m 1 le_rfl (by omega)
      (fun i hi1 hi2 => by
        rw [hall i hi1 hi2]
        simp [AttemptOutcome.isTransientFailure])
    rw [analyzeDocument]
    refine ⟨h.1, ?_⟩
    rw [h.2.2.2]
    simp
  · intro sc hsc ho
    rw [analyzeDocument,
      analyzeAttemptsFrom_last_http (m + 1) retry_delay_seconds
        outcomes 1 m sc ho (fun hc => hsc hc.1)]
    exact ⟨rfl, rfl⟩

/-- Witness for C4 amended, at the source defaults (3 attempts, base delay
2 s): permanent rate limiting gives 3 calls with backoff delays 2 s and 4 s,
and a 500 response gives one call and no delay. -/
theorem C4_retry_policy_witness :
    ((analyzeDocument 3 2 (fun _ => AttemptOutcome.httpError 429)).calls_made
        = 3 ∧
      (analyzeDocument 3 2 (fun _ => AttemptOutcome.httpError 429)).delays =
        (List.range 2).map (fun k => 2 * 2 ^ k)) ∧
    ((analyzeDocument 3 2 (fun _ => AttemptOutcome.httpError 500)).calls_made
        = 1 ∧
      (analyzeDocument 3 2 (fun _ => AttemptOutcome.httpError 500)).delays
        = []) :=
  ⟨(C4_retry_policy 3 2 (fun _ => AttemptOutcome.httpError 429)
      (by decide)).1 (fun i _ _ => rfl),
    (C4_retry_policy 3 2 (fun _ => AttemptOutcome.httpError 500)
      (by decide)).2.2 500 (by decide) rfl⟩

/-! ## Claim C5 -/

/-- C5: on a permanently failing transient error (every attempt fails with a
retryable outcome — 429 or a network error) the gateway makes exactly
`max_retry_attempts` external calls, then returns an error value instead of
raising: no response, error present. -/
theorem C5_retry_bound (max_retry_attempts retry_delay_seconds : ℕ)
    (outcomes : ℕ → AttemptOutcome) (h1 : 1 ≤ max_retry_attempts)
    (htr : ∀ i, 1 ≤ i → i ≤ max_retry_attempts →
      (outcomes i).isTransientFailure = true) :
    (analyzeDocument max_retry_attempts retry_delay_seconds
        outcomes).calls_made = max_retry_attempts ∧
    (analyzeDocument max_retry_attempts retry_delay_seconds
        outcomes).response = none ∧
    (analyzeDocument max_retry_attempts retry_delay_seconds
        outcomes).error.isSome = true := by
  obtain ⟨m, rfl⟩ : ∃ m, max_retry_attempts = m + 1 :=
    ⟨max_retry_attempts - 1, by omega⟩
  have h := analyzeAttemptsFrom_transient_spec (m + 1)
    retry_delay_seconds outcomes m 1 le_rfl (by omega) htr
  obtain ⟨hc, hr, ⟨e, he, _, _⟩, _⟩ := h
  rw [analyzeDocument]
  exact ⟨hc, hr, by rw [he]; rfl⟩

/-- Witness for C5 at the defaults: three network failures give exactly
3 calls and an error result. -/
theorem C5_retry_bound_witness :
    (analyzeDocument 3 2
        (fun _ => AttemptOutcome.serviceRequestError)).calls_made = 3 ∧
    (analyzeDocument 3 2
        (fun _ => AttemptOutcome.serviceRequestError)).response = none ∧
    (analyzeDocument 3 2
        (fun _ => AttemptOutcome.serviceRequestError)).error.isSome = true :=
  C5_retry_bound 3 2 (fun _ => AttemptOutcome.serviceRequestError)
    (by decide) (fun i _ _ => rfl)

/-! ## Claim C6 -/

/-- C6: a 400-class HTTP error other than 429 on the first attempt makes the
gateway fail immediately with an error result after exactly one external
call, with no retry and no backoff delay. -/
theorem C6_client_error_no_retry (max_retry_attempts retry_delay_seconds : ℕ)
    (outcomes : ℕ → AttemptOutcome) (sc : ℕ) (h1 : 1 ≤ max_retry_attempts)
    (_h400 : 400 ≤ sc) (_h500 : sc < 500) (h429 : sc ≠ 429)
    (ho : outcomes 1 = AttemptOutcome.httpError sc) :
    (analyzeDocument max_retry_attempts retry_delay_seconds
        outcomes).calls_made = 1 ∧
    (analyzeDocument max_retry_attempts retry_delay_seconds
        outcomes).response = none ∧
    (analyzeDocument max_retry_attempts retry_delay_seconds
        outcomes).error = some (createAzureApiError sc) ∧
    (analyzeDocument max_retry_attempts retry_delay_seconds
        outcomes).delays = [] := by
  obtain ⟨m, rfl⟩ : ∃ m, max_retry_attempts = m + 1 :=
    ⟨max_retry_attempts - 1, by omega⟩
  rw [analyzeDocument,
    analyzeAttemptsFrom_last_http (m + 1) retry_delay_seconds
      outcomes 1 m sc ho (fun hc => h429 hc.1)]
  exact ⟨rfl, rfl, rfl, rfl⟩

/-- Witness for C6: a 404 on the first attempt at the defaults gives exactly
one call and an immediate Azure API error classification. -/
theorem C6_client_error_no_retry_witness :
    (analyzeDocument 3 2
        (fun _ => AttemptOutcome.httpError 404)).calls_made = 1 ∧
    (analyzeDocument 3 2
        (fun _ => AttemptOutcome.httpError 404)).response = none ∧
    (analyzeDocument 3 2
        (fun _ => AttemptOutcome.httpError 404)).error =
      some (createAzureApiError 404) ∧
    (analyzeDocument 3 2
        (fun _ => AttemptOutcome.httpError 404)).delays = [] :=
  C6_client_error_no_retry 3 2 (fun _ => AttemptOutcome.httpError 404) 404
    (by decide) (by decide) (by decide) (by decide) rfl

/-! ## Claim C7 -/

/-- Counterexample to C7 as stated: when the external service answers 429 on
every one of the 3 default attempts, the classified error the gateway returns
has code `AZURE_API_ERROR`, not the `SERVICE_UNAVAILABLE` member of the
error-code enumeration that the claim names — the source's exhaustion paths
never produce `ErrorCode.SERVICE_UNAVAILABLE`. -/
theorem C7_counterexample :
    (analyzeDocument 3 2 (fun _ => AttemptOutcome.httpError 429)).error =
      some (createAzureApiError 429) ∧
    (createAzureApiError 429).error_code = ErrorCode.AZURE_API_ERROR ∧
    (createAzureApiError 429).error_code ≠ ErrorCode.SERVICE_UNAVAILABLE := by
  refine ⟨?_, ?_, ?_⟩ <;> decide

/-- C7 amended: whenever the gateway exhausts its retries on transient
failures (429 on every attempt included), it returns a classified error of
code `AZURE_API_ERROR` — the source's service-unavailable classification,
satisfying `is_retryable` — carrying a suggested `retry_after_seconds`, and
the orchestrated result's decision is `failed` with that same code in its
error details. -/
theorem C7_exhaustion_classification (max_retry_attempts retry_delay_seconds : ℕ)
    (outcomes : ℕ → AttemptOutcome) (reqT servT : ℚ) (enable repo : Bool)
    (store_result : Option StorageInfo × Option ErrorResponse)
    (h1 : 1 ≤ max_retry_attempts)
    (htr : ∀ i, 1 ≤ i → i ≤ max_retry_attempts →
      (outcomes i).isTransientFailure = true) :
    ∃ e, (analyzeDocument max_retry_attempts retry_delay_seconds
        outcomes).error = some e ∧
      e.error_code = ErrorCode.AZURE_API_ERROR ∧
      e.retry_after_seconds.isSome = true ∧
      e.is_retryable = true ∧
      (processDocumentFromGateway
        (analyzeDocument max_retry_attempts retry_delay_seconds outcomes)
        reqT servT enable repo store_result).analysis_status =
          AnalysisStatus.failed ∧
      (processDocumentFromGateway
        (analyzeDocument max_retry_attempts retry_delay_seconds outcomes)
        reqT servT enable repo store_result).error_details =
          some { error_code := ErrorCode.AZURE_API_ERROR
                 message := e.message } := by
  obtain ⟨m, rfl⟩ : ∃ m, max_retry_attempts = m + 1 :=
    ⟨max_retry_attempts - 1, by omega⟩
  have h := analyzeAttemptsFrom_transient_spec (m + 1)
    retry_delay_seconds outcomes m 1 le_rfl (by omega) htr
  obtain ⟨_, _, ⟨e, he, hec, hra⟩, _⟩ := h
  have hgw : (analyzeDocument (m + 1) retry_delay_seconds outcomes).error
      = some e := by
    rw [analyzeDocument]; exact he
  refine ⟨e, hgw, hec, hra, ?_, ?_, ?_⟩
  · rw [ErrorResponse.is_retryable, hec]; rfl
  · simp [processDocumentFromGateway, createFailedResponse, hgw]
  · simp [processDocumentFromGateway, createFailedResponse, hgw, hec]

/-- Witness for C7 amended: three 429 answers at the defaults produce a
retryable `AZURE_API_ERROR` with a retry hint, and a failed orchestrated
result carrying that code. -/
theorem C7_exhaustion_classification_witness :
    ∃ e, (analyzeDocument 3 2
        (fun _ => AttemptOutcome.httpError 429)).error = some e ∧
      e.error_code = ErrorCode.AZURE_API_ERROR ∧
      e.retry_after_seconds.isSome = true ∧
      e.is_retryable = true ∧
      (processDocumentFromGateway
        (analyzeDocument 3 2 (fun _ => AttemptOutcome.httpError 429))
        (7/10) (7/10) true true (none, none)).analysis_status =
          AnalysisStatus.failed ∧
      (processDocumentFromGateway
        (analyzeDocument 3 2 (fun _ => AttemptOutcome.httpError 429))
        (7/10) (7/10) true true (none, none)).error_details =
          some { error_code := ErrorCode.AZURE_API_ERROR
                 message := e.message } :=
  C7_exhaustion_classification 3 2 (fun _ => AttemptOutcome.httpError 429)
    (7/10) (7/10) true true (none, none) (by decide) (fun i _ _ => rfl)

/-! ## Claim C8 -/

/-- When every upload attempt raises an `AzureError`, the storage retry loop
returns no storage info and an error value — it never raises out of the
repository call. -/
theorem storeAttemptsFrom_allFail (max_retry_attempts retry_delay_seconds : ℕ)
    (outcomes : ℕ → StoreAttemptOutcome)
    (container_name storage_date analysis_id filename content_type : String)
    (hfail : ∀ i, outcomes i = StoreAttemptOutcome.azureError) :
    ∀ fuel attempt,
      (storeAttemptsFrom max_retry_attempts retry_delay_seconds outcomes
        container_name storage_date analysis_id filename content_type
        attempt fuel).storage_info = none ∧
      (storeAttemptsFrom max_retry_attempts retry_delay_seconds outcomes
        container_name storage_date analysis_id filename content_type
        attempt fuel).error.isSome = true := by
  intro fuel
  induction fuel with
  | zero => intro attempt; exact ⟨rfl, rfl⟩
  | succ r ih =>
    intro attempt
    by_cases hlt : attempt < max_retry_attempts
    · simpa [storeAttemptsFrom, hfail attempt, hlt] using ih (attempt + 1)
    · simp [storeAttemptsFrom, hfail attempt, hlt]

/-- C8: when the review-storage write fails on every attempt while the
decision is requires-review, the caller still receives a well-formed
response: the decision remains `requires_review`, the storage locator is
`None`, and no error details are attached — the failure never escapes the
orchestrator. -/
theorem C8_storage_failure_graceful (resp : AzureDocIntelResponse)
    (reqT servT : ℚ) (enable repo : Bool)
    (max_retry_attempts retry_delay_seconds : ℕ)
    (soutcomes : ℕ → StoreAttemptOutcome)
    (container_name storage_date analysis_id filename content_type : String)
    (hreq : determineOverallStatus
      (evalExtraction resp reqT servT).extraction_success
      (evalExtraction resp reqT servT).meets_threshold =
        AnalysisStatus.requires_review)
    (hfail : ∀ i, soutcomes i = StoreAttemptOutcome.azureError) :
    (processDocumentCore resp reqT servT enable repo
      ((storeLowConfidenceDocument max_retry_attempts retry_delay_seconds
          soutcomes container_name storage_date analysis_id filename
          content_type).storage_info,
        (storeLowConfidenceDocument max_retry_attempts retry_delay_seconds
          soutcomes container_name storage_date analysis_id filename
          content_type).error)).analysis_status =
      AnalysisStatus.requires_review ∧
    (processDocumentCore resp reqT servT enable repo
      ((storeLowConfidenceDocument max_retry_attempts retry_delay_seconds
          soutcomes container_name storage_date analysis_id filename
          content_type).storage_info,
        (storeLowConfidenceDocument max_retry_attempts retry_delay_seconds
          soutcomes container_name storage_date analysis_id filename
          content_type).error)).blob_storage_info = none ∧
    (processDocumentCore resp reqT servT enable repo
      ((storeLowConfidenceDocument max_retry_attempts retry_delay_seconds
          soutcomes container_name storage_date analysis_id filename
          content_type).storage_info,
        (storeLowConfidenceDocument max_retry_attempts retry_delay_seconds
          soutcomes container_name storage_date analysis_id filename
          content_type).error)).error_details = none := by
  have hstore := storeAttemptsFrom_allFail max_retry_attempts
    retry_delay_seconds soutcomes container_name storage_date analysis_id
    filename content_type hfail max_retry_attempts 1
  refine ⟨?_, ?_, rfl⟩
  · exact hreq
  · rw [storeLowConfidenceDocument]
    simp only [processDocumentCore]
    rw [hstore.1]
    split <;> rfl

/-- Witness for C8: on the low-confidence sample, a storage backend that
raises on all 3 default attempts still yields a requires-review response
with no storage locator. -/
theorem C8_storage_failure_graceful_witness :
    (processDocumentCore sampleLowConfidenceResponse (7/10) (7/10) true true
      ((storeLowConfidenceDocument 3 2 (fun _ => StoreAttemptOutcome.azureError)
          "document-intelligence" "2025/10/12" "analysis-abc" "doc.pdf"
          "application/pdf").storage_info,
        (storeLowConfidenceDocument 3 2 (fun _ => StoreAttemptOutcome.azureError)
          "document-intelligence" "2025/10/12" "analysis-abc" "doc.pdf"
          "application/pdf").error)).analysis_status =
      AnalysisStatus.requires_review ∧
    (processDocumentCore sampleLowConfidenceResponse (7/10) (7/10) true true
      ((storeLowConfidenceDocument 3 2 (fun _ => StoreAttemptOutcome.azureError)
          "document-intelligence" "2025/10/12" "analysis-abc" "doc.pdf"
          "application/pdf").storage_info,
        (storeLowConfidenceDocument 3 2 (fun _ => StoreAttemptOutcome.azureError)
          "document-intelligence" "2025/10/12" "analysis-abc" "doc.pdf"
          "application/pdf").error)).blob_storage_info = none ∧
    (processDocumentCore sampleLowConfidenceResponse (7/10) (7/10) true true
      ((storeLowConfidenceDocument 3 2 (fun _ => StoreAttemptOutcome.azureError)
          "document-intelligence" "2025/10/12" "analysis-abc" "doc.pdf"
          "application/pdf").storage_info,
        (storeLowConfidenceDocument 3 2 (fun _ => StoreAttemptOutcome.azureError)
          "document-intelligence" "2025/10/12" "analysis-abc" "doc.pdf"
          "application/pdf").error)).error_details = none :=
  C8_storage_failure_graceful sampleLowConfidenceResponse (7/10) (7/10)
    true true 3 2 (fun _ => StoreAttemptOutcome.azureError)
    "document-intelligence" "2025/10/12" "analysis-abc" "doc.pdf"
    "application/pdf"
    (by rw [sampleLow_eval]; rfl)
    (fun i => rfl)

/-! ## Claim C9 -/

/-- The document blob and its sibling metadata blob never share a name: past
the common per-analysis base path, one continues with `/document` and the
other with `/metadata.json`. -/
theorem documentBlobPath_ne_metadataBlobPath
    (storage_date analysis_id filename content_type : String) :
    documentBlobPath storage_date analysis_id filename content_type ≠
      metadataBlobPath storage_date analysis_id := by
  intro h
  have hd := congrArg String.data h
  rw [documentBlobPath, metadataBlobPath] at hd
  simp only [String.data_append, List.append_assoc] at hd
  have h2 := List.append_cancel_left hd
  simp at h2

/-- Counterexample to C9 as stated: the `{yyyy}/{mm}/{dd}` component of the
storage key is taken from the wall clock at store time, not from the
analysis, so storing the same `analysisId` on two different UTC dates writes
two distinct document blobs — the second store does not overwrite the first,
leaving two logical records for one analysis. -/
theorem C9_counterexample :
    (storeDocumentState
      (storeDocumentState emptyBlobStore "2025/10/11" "analysis-abc"
        "doc.pdf" "application/pdf" [1] [2])
      "2025/10/12" "analysis-abc" "doc.pdf" "application/pdf" [3] [4])
      "low-confidence/pending-review/2025/10/11/analysis-abc/document.pdf" =
        some [1] ∧
    (storeDocumentState
      (storeDocumentState emptyBlobStore "2025/10/11" "analysis-abc"
        "doc.pdf" "application/pdf" [1] [2])
      "2025/10/12" "analysis-abc" "doc.pdf" "application/pdf" [3] [4])
      "low-confidence/pending-review/2025/10/12/analysis-abc/document.pdf" =
        some [3] ∧
    documentBlobPath "2025/10/11" "analysis-abc" "doc.pdf" "application/pdf" ≠
      documentBlobPath "2025/10/12" "analysis-abc" "doc.pdf" "application/pdf" := by
  refine ⟨?_, ?_, ?_⟩ <;> decide

/-- C9 amended: the storage key is the deterministic path
`low-confidence/pending-review/{date}/{analysisId}/document{ext}` with a
sibling `metadata.json` under the same per-analysis prefix, where `{date}`
is the store-time UTC date; both blobs are written with `overwrite=True`, so
storing the same `analysisId` twice **on the same storage date** leaves
exactly the state of the second store — one logical record, no duplicate —
while stores on different dates produce distinct records. -/
theorem C9_storage_key_and_idempotence (st : BlobStore)
    (storage_date analysis_id filename content_type : String)
    (data1 meta1 data2 meta2 : List ℕ) :
    documentBlobPath storage_date analysis_id filename content_type =
      "low-confidence/pending-review/" ++ storage_date ++ "/" ++ analysis_id ++
        "/document" ++ fileExtension filename content_type ∧
    metadataBlobPath storage_date analysis_id =
      "low-confidence/pending-review/" ++ storage_date ++ "/" ++ analysis_id ++
        "/metadata.json" ∧
    storeDocumentState
      (storeDocumentState st storage_date analysis_id filename content_type
        data1 meta1)
      storage_date analysis_id filename content_type data2 meta2 =
      storeDocumentState st storage_date analysis_id filename content_type
        data2 meta2 ∧
    storeDocumentState st storage_date analysis_id filename content_type
        data1 meta1
        (documentBlobPath storage_date analysis_id filename content_type) =
      some data1 ∧
    storeDocumentState st storage_date analysis_id filename content_type
        data1 meta1 (metadataBlobPath storage_date analysis_id) =
      some meta1 := by
  refine ⟨rfl, rfl, ?_, ?_, ?_⟩
  · funext k
    simp only [storeDocumentState, uploadBlob]
    by_cases h1 : k = metadataBlobPath storage_date analysis_id
    · simp [h1]
    · by_cases h2 : k = documentBlobPath storage_date analysis_id filename
        content_type
      · simp [h1, h2]
      · simp [h1, h2]
  · simp [storeDocumentState, uploadBlob,
      documentBlobPath_ne_metadataBlobPath storage_date analysis_id filename
        content_type]
  · simp [storeDocumentState, uploadBlob]

end WarehouseReturns
